import Mathlib

/-!
Connected Spaces Platform: public header surface

A shallow embedding of three headers of the SDK fragment:

* `CSP/Services/WebService.h` (v4.11.0): `EResultCode`, `EResultBaseFailureReason`, `ResultBase`;
* `CSP/Multiplayer/Components/ButtonSpaceComponent.h` (v4.11.0): `ButtonPropertyKeys`,
  `ButtonSpaceComponent`;
* `Olympus/Multiplayer/Components/StaticModelSpaceComponent.h` (v4.0.0):
  `StaticModelPropertyKeys`, `StaticModelSpaceComponent`.

The headers hold declarations only. An enumeration is embedded as an inductive type together
with its enumerator list exactly as written (identifier, optional initialiser); the integer
value of an enumerator is computed from that list by the C++ rule. A class is embedded as its
data members (with their default member initialisers) and the list of its member function
declarations. Member functions whose bodies live in translation units outside the headers are
modelled from the specification and marked so.
-/

namespace csp

/-! ## Enumerations -/

/-- Values of the enumerators of a C++ enumeration, in declaration order: an enumerator with an
initialiser takes that value, one without takes the value of its predecessor plus one, and a
first enumerator without initialiser is zero (`next` starts at 0). -/
def enumeratorValues {α : Type} : Int → List (α × Option Int) → List (α × Int)
  | _, [] => []
  | _, (k, some v) :: rest => (k, v) :: enumeratorValues (v + 1) rest
  | next, (k, none) :: rest => (k, next) :: enumeratorValues (next + 1) rest

/-- Value of enumerator `k` in the enumeration declared by `decl`. -/
def enumeratorValue {α : Type} [DecidableEq α] (decl : List (α × Option Int)) (k : α) : Int :=
  match (enumeratorValues 0 decl).find? (fun p => decide (p.1 = k)) with
  | some p => p.2
  | none => 0

end csp

namespace csp.services

/-- The `enum class EResultCode : uint8_t` of WebService.h. -/
inductive EResultCode
  | Init
  | InProgress
  | Success
  | Failed
  deriving DecidableEq, Repr

/-- Enumerator list of `EResultCode` as written: no enumerator has an initialiser. -/
def EResultCode.declaration : List (EResultCode × Option Int) :=
  [(EResultCode.Init, none), (EResultCode.InProgress, none), (EResultCode.Success, none),
   (EResultCode.Failed, none)]

/-- Underlying code of an `EResultCode` value. -/
def EResultCode.toInt (c : EResultCode) : Int :=
  enumeratorValue EResultCode.declaration c

/-- The `enum class EResultBaseFailureReason` of WebService.h. -/
inductive EResultBaseFailureReason
  | Unknown
  | None
  deriving DecidableEq, Repr

/-- Enumerator list of `EResultBaseFailureReason` as written: `Unknown = -1, None = 0`. -/
def EResultBaseFailureReason.declaration : List (EResultBaseFailureReason × Option Int) :=
  [(EResultBaseFailureReason.Unknown, some (-1)), (EResultBaseFailureReason.None, some 0)]

/-- Integer code of an `EResultBaseFailureReason` value. -/
def EResultBaseFailureReason.toInt (c : EResultBaseFailureReason) : Int :=
  enumeratorValue EResultBaseFailureReason.declaration c

end csp.services

namespace csp.multiplayer

/-- The `enum class ButtonPropertyKeys` of ButtonSpaceComponent.h. -/
inductive ButtonPropertyKeys
  | Name
  | LabelText
  | IconAssetId
  | AssetCollectionId
  | Position
  | Rotation
  | Scale
  | IsVisible
  | IsEnabled
  | IsARVisible
  | Num
  deriving DecidableEq, Repr

/-- Enumerator list of `ButtonPropertyKeys` as written: only `Name = 0` has an initialiser. -/
def ButtonPropertyKeys.declaration : List (ButtonPropertyKeys × Option Int) :=
  [(ButtonPropertyKeys.Name, some 0), (ButtonPropertyKeys.LabelText, none),
   (ButtonPropertyKeys.IconAssetId, none), (ButtonPropertyKeys.AssetCollectionId, none),
   (ButtonPropertyKeys.Position, none), (ButtonPropertyKeys.Rotation, none),
   (ButtonPropertyKeys.Scale, none), (ButtonPropertyKeys.IsVisible, none),
   (ButtonPropertyKeys.IsEnabled, none), (ButtonPropertyKeys.IsARVisible, none),
   (ButtonPropertyKeys.Num, none)]

/-- Integer index of a button property key. -/
def ButtonPropertyKeys.toInt (k : ButtonPropertyKeys) : Int :=
  enumeratorValue ButtonPropertyKeys.declaration k

/-- Enumerators of `ButtonPropertyKeys` in declaration order. -/
def ButtonPropertyKeys.order : List ButtonPropertyKeys :=
  ButtonPropertyKeys.declaration.map Prod.fst

/-- The real property keys of the button component: every enumerator except the sentinel. -/
def ButtonPropertyKeys.realKeys : List ButtonPropertyKeys :=
  ButtonPropertyKeys.order.filter (fun k => decide (k ≠ ButtonPropertyKeys.Num))

end csp.multiplayer

namespace oly_multiplayer

/-- The `enum class StaticModelPropertyKeys` of StaticModelSpaceComponent.h. -/
inductive StaticModelPropertyKeys
  | Name
  | ModelAssetId
  | AssetCollectionId
  | Position
  | Rotation
  | Scale
  | IsVisible
  | IsARVisible
  | Num
  deriving DecidableEq, Repr

/-- Enumerator list of `StaticModelPropertyKeys` as written: only `Name = 0` has an
initialiser. -/
def StaticModelPropertyKeys.declaration : List (StaticModelPropertyKeys × Option Int) :=
  [(StaticModelPropertyKeys.Name, some 0), (StaticModelPropertyKeys.ModelAssetId, none),
   (StaticModelPropertyKeys.AssetCollectionId, none), (StaticModelPropertyKeys.Position, none),
   (StaticModelPropertyKeys.Rotation, none), (StaticModelPropertyKeys.Scale, none),
   (StaticModelPropertyKeys.IsVisible, none), (StaticModelPropertyKeys.IsARVisible, none),
   (StaticModelPropertyKeys.Num, none)]

/-- Integer index of a static model property key. -/
def StaticModelPropertyKeys.toInt (k : StaticModelPropertyKeys) : Int :=
  csp.enumeratorValue StaticModelPropertyKeys.declaration k

/-- Enumerators of `StaticModelPropertyKeys` in declaration order. -/
def StaticModelPropertyKeys.order : List StaticModelPropertyKeys :=
  StaticModelPropertyKeys.declaration.map Prod.fst

/-- The real property keys of the static model component: every enumerator except the
sentinel. -/
def StaticModelPropertyKeys.realKeys : List StaticModelPropertyKeys :=
  StaticModelPropertyKeys.order.filter (fun k => decide (k ≠ StaticModelPropertyKeys.Num))

end oly_multiplayer

/-! ## Value types -/

namespace csp.common

/-- The C++ scalar type `float`, kept as its IEEE-754 binary32 bit pattern. Only storing,
copying and reading back are used below, never arithmetic. -/
structure float where
  bits : Nat
  deriving DecidableEq, Repr

/-- The literal `0.0f`: positive zero, the all-zero bit pattern. -/
def float.zero : float := ⟨0⟩

/-- Modelled from the spec: `Vector3` is declared in a header that is not among the sources;
the specification calls it a 3-vector, taken here as three `float` coordinates. -/
structure Vector3 where
  X : float
  Y : float
  Z : float
  deriving DecidableEq, Repr

/-- Modelled from the spec: `Vector4` is declared in a header that is not among the sources;
the specification calls it a 4-vector/quaternion, taken here as four `float` coordinates. -/
structure Vector4 where
  X : float
  Y : float
  Z : float
  W : float
  deriving DecidableEq, Repr

end csp.common

/-! ## Class declarations -/

namespace csp

/-- Value types that occur in the accessor signatures of the two component classes. The
`String`, `Vector3` and `Vector4` of namespaces `csp::common` and `oly_common` are not told
apart. -/
inductive CppType
  | void
  | bool
  | String
  | Vector3
  | Vector4
  deriving DecidableEq, Repr

/-- A result or parameter type as written: `T` when `constRef` is false, `const T&` when it is
true. -/
structure TypeExpr where
  base : CppType
  constRef : Bool
  deriving DecidableEq, Repr

/-- Declaration of a member function: its name, result type, parameter types and whether it
carries the `const` qualifier. -/
structure MemberFunction where
  name : String
  result : TypeExpr
  parameters : List TypeExpr
  isConst : Bool
  deriving DecidableEq, Repr

/-- Getters declared for a property named `key`: the `const` member functions `Get<key>`
without parameters. -/
def getters (decls : List MemberFunction) (key : String) : List MemberFunction :=
  decls.filter (fun m => m.name == "Get" ++ key && m.parameters.isEmpty && m.isConst)

/-- Setters declared for a property named `key`: the member functions `Set<key>` with one
parameter and result `void`. -/
def setters (decls : List MemberFunction) (key : String) : List MemberFunction :=
  decls.filter (fun m =>
    m.name == "Set" ++ key && m.parameters.length == 1 && m.result == ⟨CppType.void, false⟩)

/-- Type of the slot that the declarations give to the property named `key`: `some T` when
exactly one getter and exactly one setter are declared for it and the result type of the getter
is the parameter type of the setter, `none` otherwise. -/
def typedSlot (decls : List MemberFunction) (key : String) : Option CppType :=
  match getters decls key, setters decls key with
  | [g], [s] => if s.parameters = [g.result] then some g.result.base else none
  | _, _ => none

/-- The property named `key` has exactly one typed slot in `decls`: one getter, one setter,
both of the same type, which is one of string, `Vector3`, `Vector4` or `bool`. -/
def hasTypedSlot (decls : List MemberFunction) (key : String) : Bool :=
  (getters decls key).length == 1 && (setters decls key).length == 1 &&
    (match typedSlot decls key with
     | some T => [CppType.String, CppType.Vector3, CppType.Vector4, CppType.bool].contains T
     | none => false)

end csp

namespace csp.multiplayer

open csp

/-- Identifier of a button property key as written in the enumeration. -/
def ButtonPropertyKeys.identifier : ButtonPropertyKeys → String
  | .Name => "Name"
  | .LabelText => "LabelText"
  | .IconAssetId => "IconAssetId"
  | .AssetCollectionId => "AssetCollectionId"
  | .Position => "Position"
  | .Rotation => "Rotation"
  | .Scale => "Scale"
  | .IsVisible => "IsVisible"
  | .IsEnabled => "IsEnabled"
  | .IsARVisible => "IsARVisible"
  | .Num => "Num"

/-- Member functions declared in the body of `class ButtonSpaceComponent`, in the order of the
header (the constructor aside). The `override` specifier of the six `Is...` accessors is not
recorded. -/
def ButtonSpaceComponent.declarations : List MemberFunction :=
  [ ⟨"GetLabelText", ⟨.String, true⟩, [], true⟩,
    ⟨"SetLabelText", ⟨.void, false⟩, [⟨.String, true⟩], false⟩,
    ⟨"GetIconAssetId", ⟨.String, true⟩, [], true⟩,
    ⟨"SetIconAssetId", ⟨.void, false⟩, [⟨.String, true⟩], false⟩,
    ⟨"GetAssetCollectionId", ⟨.String, true⟩, [], true⟩,
    ⟨"SetAssetCollectionId", ⟨.void, false⟩, [⟨.String, true⟩], false⟩,
    ⟨"GetPosition", ⟨.Vector3, true⟩, [], true⟩,
    ⟨"SetPosition", ⟨.void, false⟩, [⟨.Vector3, true⟩], false⟩,
    ⟨"GetRotation", ⟨.Vector4, true⟩, [], true⟩,
    ⟨"SetRotation", ⟨.void, false⟩, [⟨.Vector4, true⟩], false⟩,
    ⟨"GetScale", ⟨.Vector3, true⟩, [], true⟩,
    ⟨"SetScale", ⟨.void, false⟩, [⟨.Vector3, true⟩], false⟩,
    ⟨"GetIsEnabled", ⟨.bool, false⟩, [], true⟩,
    ⟨"SetIsEnabled", ⟨.void, false⟩, [⟨.bool, false⟩], false⟩,
    ⟨"GetIsVisible", ⟨.bool, false⟩, [], true⟩,
    ⟨"SetIsVisible", ⟨.void, false⟩, [⟨.bool, false⟩], false⟩,
    ⟨"GetIsARVisible", ⟨.bool, false⟩, [], true⟩,
    ⟨"SetIsARVisible", ⟨.void, false⟩, [⟨.bool, false⟩], false⟩ ]

/-- Type of the slot that `class ButtonSpaceComponent` declares for key `k`. -/
def ButtonPropertyKeys.slotType (k : ButtonPropertyKeys) : Option CppType :=
  typedSlot ButtonSpaceComponent.declarations k.identifier

end csp.multiplayer

namespace oly_multiplayer

open csp

/-- Identifier of a static model property key as written in the enumeration. -/
def StaticModelPropertyKeys.identifier : StaticModelPropertyKeys → String
  | .Name => "Name"
  | .ModelAssetId => "ModelAssetId"
  | .AssetCollectionId => "AssetCollectionId"
  | .Position => "Position"
  | .Rotation => "Rotation"
  | .Scale => "Scale"
  | .IsVisible => "IsVisible"
  | .IsARVisible => "IsARVisible"
  | .Num => "Num"

/-- Member functions declared in the body of `class StaticModelSpaceComponent`, in the order of
the header (the constructor aside). `GetModelAssetId` and `SetModelAssetId` carry the
`deprecated` attribute and are declared all the same. -/
def StaticModelSpaceComponent.declarations : List MemberFunction :=
  [ ⟨"GetModelAssetId", ⟨.String, true⟩, [], true⟩,
    ⟨"SetModelAssetId", ⟨.void, false⟩, [⟨.String, true⟩], false⟩,
    ⟨"GetAssetCollectionId", ⟨.String, true⟩, [], true⟩,
    ⟨"SetAssetCollectionId", ⟨.void, false⟩, [⟨.String, true⟩], false⟩,
    ⟨"GetPosition", ⟨.Vector3, true⟩, [], true⟩,
    ⟨"SetPosition", ⟨.void, false⟩, [⟨.Vector3, true⟩], false⟩,
    ⟨"GetRotation", ⟨.Vector4, true⟩, [], true⟩,
    ⟨"SetRotation", ⟨.void, false⟩, [⟨.Vector4, true⟩], false⟩,
    ⟨"GetScale", ⟨.Vector3, true⟩, [], true⟩,
    ⟨"SetScale", ⟨.void, false⟩, [⟨.Vector3, true⟩], false⟩,
    ⟨"GetIsVisible", ⟨.bool, false⟩, [], true⟩,
    ⟨"SetIsVisible", ⟨.void, false⟩, [⟨.bool, false⟩], false⟩,
    ⟨"GetIsARVisible", ⟨.bool, false⟩, [], true⟩,
    ⟨"SetIsARVisible", ⟨.void, false⟩, [⟨.bool, false⟩], false⟩ ]

/-- Type of the slot that `class StaticModelSpaceComponent` declares for key `k`. -/
def StaticModelPropertyKeys.slotType (k : StaticModelPropertyKeys) : Option CppType :=
  typedSlot StaticModelSpaceComponent.declarations k.identifier

end oly_multiplayer

/-! ## Result object

`OnProgress`, `OnResponse`, `SetResult`, `ParseErrorCode` and the two-argument constructor are
declared in WebService.h without a body, and the specification defines no transition logic for
them; they have no counterpart below. -/

namespace csp.services

open csp.common

/-- Data members of `class ResultBase` with their default member initialisers as written in
WebService.h: `Result = EResultCode::Init`, `HttpResponseCode = 0` (a `uint16_t`),
`RequestProgress = 0.0f`, `ResponseProgress = 0.0f`. `ResponseBody` and `FailureReason` are
declared without an initialiser. -/
structure ResultBase where
  Result : EResultCode := EResultCode.Init
  HttpResponseCode : Nat := 0
  RequestProgress : float := float.zero
  ResponseProgress : float := float.zero
  ResponseBody : String
  FailureReason : Int

/-- Modelled from the spec: the definition of the constructor `ResultBase::ResultBase()` is not
among the sources, the header only declares it ("Constructs an empty result"). The
specification has the result "created empty (Init)": every member with a default member
initialiser takes it. The two members without one are left to the absent definition and are
parameters here. The name `construct` stands for the constructor, which Lean cannot call
`ResultBase.ResultBase` next to the type. -/
def ResultBase.construct (ResponseBody : String) (FailureReason : Int) : ResultBase :=
  { ResponseBody := ResponseBody, FailureReason := FailureReason }

/-- Modelled from the spec: the body of `ResultBase::GetResultCode` is not among the sources;
the specification describes the result object as exposing a status reader. -/
def ResultBase.GetResultCode (r : ResultBase) : EResultCode := r.Result

/-- Modelled from the spec: the body of `ResultBase::GetHttpResultCode` is not among the
sources; it reads the HTTP status code (a `uint16_t`). -/
def ResultBase.GetHttpResultCode (r : ResultBase) : Nat := r.HttpResponseCode % 2 ^ 16

/-- Modelled from the spec: the body of `ResultBase::GetRequestProgress` is not among the
sources; it reads the request progress. -/
def ResultBase.GetRequestProgress (r : ResultBase) : float := r.RequestProgress

/-- Modelled from the spec: the body of `ResultBase::GetResponseProgress` is not among the
sources; it reads the response progress. -/
def ResultBase.GetResponseProgress (r : ResultBase) : float := r.ResponseProgress

end csp.services

/-! ## Replicated property sets -/

namespace csp.multiplayer

open csp.common

/-- Modelled from the spec: the value held by a replicated property slot; "values are typed
(string, 3-vector, 4-vector/quaternion, boolean)". -/
inductive PropertyValue
  | String (Value : String)
  | Vector3 (Value : Vector3)
  | Vector4 (Value : Vector4)
  | Boolean (Value : Bool)
  deriving DecidableEq, Repr

/-- Modelled from the spec: `ComponentBase` is declared in a header that is not among the
sources. The specification describes a component as a property set of slots, one per property
key, addressed by the integer index that the enumeration order gives the key. -/
structure ComponentBase where
  Properties : Int → PropertyValue

/-- Modelled from the spec: reading the slot with index `Key`. -/
def ComponentBase.GetProperty (c : ComponentBase) (Key : Int) : PropertyValue :=
  c.Properties Key

/-- Modelled from the spec: writing `Value` to the slot with index `Key`; every other slot
keeps its value. -/
def ComponentBase.SetProperty (c : ComponentBase) (Key : Int) (Value : PropertyValue) :
    ComponentBase :=
  { Properties := fun k => if k = Key then Value else c.Properties k }

/-- Modelled from the spec: reading a string slot. What a getter returns for a slot that holds
a value of another type is not said, the empty string stands in. -/
def ComponentBase.GetStringProperty (c : ComponentBase) (Key : Int) : String :=
  match c.GetProperty Key with
  | .String Value => Value
  | _ => ""

/-- Modelled from the spec: reading a 3-vector slot, the zero vector standing in for a slot of
another type. -/
def ComponentBase.GetVector3Property (c : ComponentBase) (Key : Int) : Vector3 :=
  match c.GetProperty Key with
  | .Vector3 Value => Value
  | _ => ⟨float.zero, float.zero, float.zero⟩

/-- Modelled from the spec: reading a 4-vector slot, the zero vector standing in for a slot of
another type. -/
def ComponentBase.GetVector4Property (c : ComponentBase) (Key : Int) : Vector4 :=
  match c.GetProperty Key with
  | .Vector4 Value => Value
  | _ => ⟨float.zero, float.zero, float.zero, float.zero⟩

/-- Modelled from the spec: reading a boolean slot, `false` standing in for a slot of another
type. -/
def ComponentBase.GetBooleanProperty (c : ComponentBase) (Key : Int) : Bool :=
  match c.GetProperty Key with
  | .Boolean Value => Value
  | _ => false

/-- State of a `ButtonSpaceComponent`: the property set inherited from `ComponentBase`. -/
structure ButtonSpaceComponent extends ComponentBase

namespace ButtonSpaceComponent

/-- Modelled from the spec: body of `GetLabelText`, a typed getter over the `LabelText` slot. -/
def GetLabelText (c : ButtonSpaceComponent) : String :=
  c.GetStringProperty ButtonPropertyKeys.LabelText.toInt

/-- Modelled from the spec: body of `SetLabelText`, a typed setter over the `LabelText` slot. -/
def SetLabelText (c : ButtonSpaceComponent) (Value : String) : ButtonSpaceComponent :=
  ⟨c.SetProperty ButtonPropertyKeys.LabelText.toInt (.String Value)⟩

/-- Modelled from the spec: body of `GetIconAssetId`, a typed getter over the `IconAssetId`
slot. -/
def GetIconAssetId (c : ButtonSpaceComponent) : String :=
  c.GetStringProperty ButtonPropertyKeys.IconAssetId.toInt

/-- Modelled from the spec: body of `SetIconAssetId`, a typed setter over the `IconAssetId`
slot. -/
def SetIconAssetId (c : ButtonSpaceComponent) (Value : String) : ButtonSpaceComponent :=
  ⟨c.SetProperty ButtonPropertyKeys.IconAssetId.toInt (.String Value)⟩

/-- Modelled from the spec: body of `GetAssetCollectionId`, a typed getter over the
`AssetCollectionId` slot. -/
def GetAssetCollectionId (c : ButtonSpaceComponent) : String :=
  c.GetStringProperty ButtonPropertyKeys.AssetCollectionId.toInt

/-- Modelled from the spec: body of `SetAssetCollectionId`, a typed setter over the
`AssetCollectionId` slot. -/
def SetAssetCollectionId (c : ButtonSpaceComponent) (Value : String) : ButtonSpaceComponent :=
  ⟨c.SetProperty ButtonPropertyKeys.AssetCollectionId.toInt (.String Value)⟩

/-- Modelled from the spec: body of `GetPosition`, a typed getter over the `Position` slot. -/
def GetPosition (c : ButtonSpaceComponent) : Vector3 :=
  c.GetVector3Property ButtonPropertyKeys.Position.toInt

/-- Modelled from the spec: body of `SetPosition`, a typed setter over the `Position` slot. -/
def SetPosition (c : ButtonSpaceComponent) (Value : Vector3) : ButtonSpaceComponent :=
  ⟨c.SetProperty ButtonPropertyKeys.Position.toInt (.Vector3 Value)⟩

/-- Modelled from the spec: body of `GetRotation`, a typed getter over the `Rotation` slot. -/
def GetRotation (c : ButtonSpaceComponent) : Vector4 :=
  c.GetVector4Property ButtonPropertyKeys.Rotation.toInt

/-- Modelled from the spec: body of `SetRotation`, a typed setter over the `Rotation` slot. -/
def SetRotation (c : ButtonSpaceComponent) (Value : Vector4) : ButtonSpaceComponent :=
  ⟨c.SetProperty ButtonPropertyKeys.Rotation.toInt (.Vector4 Value)⟩

/-- Modelled from the spec: body of `GetScale`, a typed getter over the `Scale` slot. -/
def GetScale (c : ButtonSpaceComponent) : Vector3 :=
  c.GetVector3Property ButtonPropertyKeys.Scale.toInt

/-- Modelled from the spec: body of `SetScale`, a typed setter over the `Scale` slot. -/
def SetScale (c : ButtonSpaceComponent) (Value : Vector3) : ButtonSpaceComponent :=
  ⟨c.SetProperty ButtonPropertyKeys.Scale.toInt (.Vector3 Value)⟩

/-- Modelled from the spec: body of `GetIsEnabled`, a typed getter over the `IsEnabled`
slot. -/
def GetIsEnabled (c : ButtonSpaceComponent) : Bool :=
  c.GetBooleanProperty ButtonPropertyKeys.IsEnabled.toInt

/-- Modelled from the spec: body of `SetIsEnabled`, a typed setter over the `IsEnabled`
slot. -/
def SetIsEnabled (c : ButtonSpaceComponent) (InValue : Bool) : ButtonSpaceComponent :=
  ⟨c.SetProperty ButtonPropertyKeys.IsEnabled.toInt (.Boolean InValue)⟩

/-- Modelled from the spec: body of `GetIsVisible`, a typed getter over the `IsVisible`
slot. -/
def GetIsVisible (c : ButtonSpaceComponent) : Bool :=
  c.GetBooleanProperty ButtonPropertyKeys.IsVisible.toInt

/-- Modelled from the spec: body of `SetIsVisible`, a typed setter over the `IsVisible`
slot. -/
def SetIsVisible (c : ButtonSpaceComponent) (InValue : Bool) : ButtonSpaceComponent :=
  ⟨c.SetProperty ButtonPropertyKeys.IsVisible.toInt (.Boolean InValue)⟩

/-- Modelled from the spec: body of `GetIsARVisible`, a typed getter over the `IsARVisible`
slot. -/
def GetIsARVisible (c : ButtonSpaceComponent) : Bool :=
  c.GetBooleanProperty ButtonPropertyKeys.IsARVisible.toInt

/-- Modelled from the spec: body of `SetIsARVisible`, a typed setter over the `IsARVisible`
slot. -/
def SetIsARVisible (c : ButtonSpaceComponent) (InValue : Bool) : ButtonSpaceComponent :=
  ⟨c.SetProperty ButtonPropertyKeys.IsARVisible.toInt (.Boolean InValue)⟩

end ButtonSpaceComponent

end csp.multiplayer

namespace oly_multiplayer

open csp.common csp.multiplayer

/-- State of a `StaticModelSpaceComponent`: the property set inherited from `ComponentBase`
(the `oly_multiplayer` base class is modelled like the `csp::multiplayer` one). -/
structure StaticModelSpaceComponent extends ComponentBase

namespace StaticModelSpaceComponent

/-- Modelled from the spec: body of `GetModelAssetId`, a typed getter over the `ModelAssetId`
slot. -/
def GetModelAssetId (c : StaticModelSpaceComponent) : String :=
  c.GetStringProperty StaticModelPropertyKeys.ModelAssetId.toInt

/-- Modelled from the spec: body of `SetModelAssetId`, a typed setter over the `ModelAssetId`
slot. -/
def SetModelAssetId (c : StaticModelSpaceComponent) (Value : String) :
    StaticModelSpaceComponent :=
  ⟨c.SetProperty StaticModelPropertyKeys.ModelAssetId.toInt (.String Value)⟩

/-- Modelled from the spec: body of `GetAssetCollectionId`, a typed getter over the
`AssetCollectionId` slot. -/
def GetAssetCollectionId (c : StaticModelSpaceComponent) : String :=
  c.GetStringProperty StaticModelPropertyKeys.AssetCollectionId.toInt

/-- Modelled from the spec: body of `SetAssetCollectionId`, a typed setter over the
`AssetCollectionId` slot. -/
def SetAssetCollectionId (c : StaticModelSpaceComponent) (Value : String) :
    StaticModelSpaceComponent :=
  ⟨c.SetProperty StaticModelPropertyKeys.AssetCollectionId.toInt (.String Value)⟩

/-- Modelled from the spec: body of `GetPosition`, a typed getter over the `Position` slot. -/
def GetPosition (c : StaticModelSpaceComponent) : Vector3 :=
  c.GetVector3Property StaticModelPropertyKeys.Position.toInt

/-- Modelled from the spec: body of `SetPosition`, a typed setter over the `Position` slot. -/
def SetPosition (c : StaticModelSpaceComponent) (Value : Vector3) : StaticModelSpaceComponent :=
  ⟨c.SetProperty StaticModelPropertyKeys.Position.toInt (.Vector3 Value)⟩

/-- Modelled from the spec: body of `GetRotation`, a typed getter over the `Rotation` slot. -/
def GetRotation (c : StaticModelSpaceComponent) : Vector4 :=
  c.GetVector4Property StaticModelPropertyKeys.Rotation.toInt

/-- Modelled from the spec: body of `SetRotation`, a typed setter over the `Rotation` slot. -/
def SetRotation (c : StaticModelSpaceComponent) (Value : Vector4) : StaticModelSpaceComponent :=
  ⟨c.SetProperty StaticModelPropertyKeys.Rotation.toInt (.Vector4 Value)⟩

/-- Modelled from the spec: body of `GetScale`, a typed getter over the `Scale` slot. -/
def GetScale (c : StaticModelSpaceComponent) : Vector3 :=
  c.GetVector3Property StaticModelPropertyKeys.Scale.toInt

/-- Modelled from the spec: body of `SetScale`, a typed setter over the `Scale` slot. -/
def SetScale (c : StaticModelSpaceComponent) (Value : Vector3) : StaticModelSpaceComponent :=
  ⟨c.SetProperty StaticModelPropertyKeys.Scale.toInt (.Vector3 Value)⟩

/-- Modelled from the spec: body of `GetIsVisible`, a typed getter over the `IsVisible`
slot. -/
def GetIsVisible (c : StaticModelSpaceComponent) : Bool :=
  c.GetBooleanProperty StaticModelPropertyKeys.IsVisible.toInt

/-- Modelled from the spec: body of `SetIsVisible`, a typed setter over the `IsVisible`
slot. -/
def SetIsVisible (c : StaticModelSpaceComponent) (InValue : Bool) : StaticModelSpaceComponent :=
  ⟨c.SetProperty StaticModelPropertyKeys.IsVisible.toInt (.Boolean InValue)⟩

/-- Modelled from the spec: body of `GetIsARVisible`, a typed getter over the `IsARVisible`
slot. -/
def GetIsARVisible (c : StaticModelSpaceComponent) : Bool :=
  c.GetBooleanProperty StaticModelPropertyKeys.IsARVisible.toInt

/-- Modelled from the spec: body of `SetIsARVisible`, a typed setter over the `IsARVisible`
slot. -/
def SetIsARVisible (c : StaticModelSpaceComponent) (InValue : Bool) :
    StaticModelSpaceComponent :=
  ⟨c.SetProperty StaticModelPropertyKeys.IsARVisible.toInt (.Boolean InValue)⟩

end StaticModelSpaceComponent

end oly_multiplayer

/-! ## Theorems -/

open csp csp.common csp.multiplayer oly_multiplayer csp.services

/-! ### Shared lemmas -/

theorem ComponentBase_getProperty_setProperty (c : ComponentBase) (Key : Int)
    (Value : PropertyValue) : (c.SetProperty Key Value).GetProperty Key = Value := by
  simp [ComponentBase.SetProperty, ComponentBase.GetProperty]

theorem ComponentBase_getString_setProperty (c : ComponentBase) (Key : Int) (Value : String) :
    (c.SetProperty Key (.String Value)).GetStringProperty Key = Value := by
  simp [ComponentBase.GetStringProperty, ComponentBase_getProperty_setProperty]

theorem ComponentBase_getVector3_setProperty (c : ComponentBase) (Key : Int) (Value : Vector3) :
    (c.SetProperty Key (.Vector3 Value)).GetVector3Property Key = Value := by
  simp [ComponentBase.GetVector3Property, ComponentBase_getProperty_setProperty]

theorem ComponentBase_getVector4_setProperty (c : ComponentBase) (Key : Int) (Value : Vector4) :
    (c.SetProperty Key (.Vector4 Value)).GetVector4Property Key = Value := by
  simp [ComponentBase.GetVector4Property, ComponentBase_getProperty_setProperty]

theorem ComponentBase_getBoolean_setProperty (c : ComponentBase) (Key : Int) (Value : Bool) :
    (c.SetProperty Key (.Boolean Value)).GetBooleanProperty Key = Value := by
  simp [ComponentBase.GetBooleanProperty, ComponentBase_getProperty_setProperty]

/-- The two enumerators of `EResultBaseFailureReason` have the codes written in the header,
`Unknown = -1` and `None = 0`, and so differ. -/
theorem EResultBaseFailureReason_codes :
    EResultBaseFailureReason.toInt .Unknown = -1 ∧ EResultBaseFailureReason.toInt .None = 0 ∧
    EResultBaseFailureReason.Unknown ≠ EResultBaseFailureReason.None := by
  decide

/-! ### The claims -/

/-- C1: a `ResultBase` built by the empty constructor is in the empty state, whatever the
constructor leaves in the two members without default initialiser: `GetResultCode()` is
`EResultCode::Init`, `GetHttpResultCode()` is 0, and `GetRequestProgress()` and
`GetResponseProgress()` are both `0.0f`. -/
theorem ResultBase_empty_constructor_state (ResponseBody : String) (FailureReason : Int) :
    (ResultBase.construct ResponseBody FailureReason).GetResultCode = EResultCode.Init ∧
    (ResultBase.construct ResponseBody FailureReason).GetHttpResultCode = 0 ∧
    (ResultBase.construct ResponseBody FailureReason).GetRequestProgress = float.zero ∧
    (ResultBase.construct ResponseBody FailureReason).GetResponseProgress = float.zero :=
  ⟨rfl, rfl, rfl, rfl⟩

/-- C2: in `ButtonPropertyKeys` and in `StaticModelPropertyKeys` the enumeration order defines
the indices. The map from key to index is injective, `Name` has index 0, every following key
has the index of its predecessor plus one, `Num` equals the number of real property keys (10
and 8), and the real keys carry exactly the indices 0 .. Num-1 in order. -/
theorem property_keys_indices_follow_enumeration_order :
    (Function.Injective ButtonPropertyKeys.toInt ∧
      ButtonPropertyKeys.toInt .Name = 0 ∧
      List.Chain' (fun a b => ButtonPropertyKeys.toInt b = ButtonPropertyKeys.toInt a + 1)
        ButtonPropertyKeys.order ∧
      ButtonPropertyKeys.toInt .Num = 10 ∧
      (ButtonPropertyKeys.realKeys.length : Int) = ButtonPropertyKeys.toInt .Num ∧
      ButtonPropertyKeys.realKeys.map ButtonPropertyKeys.toInt
        = (List.range 10).map Int.ofNat) ∧
    (Function.Injective StaticModelPropertyKeys.toInt ∧
      StaticModelPropertyKeys.toInt .Name = 0 ∧
      List.Chain'
        (fun a b => StaticModelPropertyKeys.toInt b = StaticModelPropertyKeys.toInt a + 1)
        StaticModelPropertyKeys.order ∧
      StaticModelPropertyKeys.toInt .Num = 8 ∧
      (StaticModelPropertyKeys.realKeys.length : Int) = StaticModelPropertyKeys.toInt .Num ∧
      StaticModelPropertyKeys.realKeys.map StaticModelPropertyKeys.toInt
        = (List.range 8).map Int.ofNat) := by
  refine ⟨⟨?_, by decide, ?_, by decide, by decide, by decide⟩,
    ⟨?_, by decide, ?_, by decide, by decide, by decide⟩⟩
  · intro a b h
    cases a <;> cases b <;> first | rfl | (exact absurd h (by decide))
  · simp only [ButtonPropertyKeys.order, ButtonPropertyKeys.declaration, List.map,
      List.chain'_cons, List.chain'_singleton, and_true]
    decide
  · intro a b h
    cases a <;> cases b <;> first | rfl | (exact absurd h (by decide))
  · simp only [StaticModelPropertyKeys.order, StaticModelPropertyKeys.declaration, List.map,
      List.chain'_cons, List.chain'_singleton, and_true]
    decide

/-- C3: in a `ButtonSpaceComponent`, for each of the properties LabelText, IconAssetId,
AssetCollectionId, Position, Rotation, Scale, IsVisible, IsEnabled and IsARVisible, the setter
followed by the getter returns the value that was set, for every component state and every
value; the same holds for the seven accessor pairs of `StaticModelSpaceComponent`. -/
theorem component_getter_after_setter_returns_value :
    ((∀ (c : ButtonSpaceComponent) (v : String), (c.SetLabelText v).GetLabelText = v) ∧
      (∀ (c : ButtonSpaceComponent) (v : String), (c.SetIconAssetId v).GetIconAssetId = v) ∧
      (∀ (c : ButtonSpaceComponent) (v : String),
        (c.SetAssetCollectionId v).GetAssetCollectionId = v) ∧
      (∀ (c : ButtonSpaceComponent) (v : Vector3), (c.SetPosition v).GetPosition = v) ∧
      (∀ (c : ButtonSpaceComponent) (v : Vector4), (c.SetRotation v).GetRotation = v) ∧
      (∀ (c : ButtonSpaceComponent) (v : Vector3), (c.SetScale v).GetScale = v) ∧
      (∀ (c : ButtonSpaceComponent) (v : Bool), (c.SetIsVisible v).GetIsVisible = v) ∧
      (∀ (c : ButtonSpaceComponent) (v : Bool), (c.SetIsEnabled v).GetIsEnabled = v) ∧
      (∀ (c : ButtonSpaceComponent) (v : Bool), (c.SetIsARVisible v).GetIsARVisible = v)) ∧
    ((∀ (c : StaticModelSpaceComponent) (v : String),
        (c.SetModelAssetId v).GetModelAssetId = v) ∧
      (∀ (c : StaticModelSpaceComponent) (v : String),
        (c.SetAssetCollectionId v).GetAssetCollectionId = v) ∧
      (∀ (c : StaticModelSpaceComponent) (v : Vector3), (c.SetPosition v).GetPosition = v) ∧
      (∀ (c : StaticModelSpaceComponent) (v : Vector4), (c.SetRotation v).GetRotation = v) ∧
      (∀ (c : StaticModelSpaceComponent) (v : Vector3), (c.SetScale v).GetScale = v) ∧
      (∀ (c : StaticModelSpaceComponent) (v : Bool), (c.SetIsVisible v).GetIsVisible = v) ∧
      (∀ (c : StaticModelSpaceComponent) (v : Bool),
        (c.SetIsARVisible v).GetIsARVisible = v)) := by
  refine ⟨⟨?_, ?_, ?_, ?_, ?_, ?_, ?_, ?_, ?_⟩, ⟨?_, ?_, ?_, ?_, ?_, ?_, ?_⟩⟩
  · exact fun c v => ComponentBase_getString_setProperty c.toComponentBase _ v
  · exact fun c v => ComponentBase_getString_setProperty c.toComponentBase _ v
  · exact fun c v => ComponentBase_getString_setProperty c.toComponentBase _ v
  · exact fun c v => ComponentBase_getVector3_setProperty c.toComponentBase _ v
  · exact fun c v => ComponentBase_getVector4_setProperty c.toComponentBase _ v
  · exact fun c v => ComponentBase_getVector3_setProperty c.toComponentBase _ v
  · exact fun c v => ComponentBase_getBoolean_setProperty c.toComponentBase _ v
  · exact fun c v => ComponentBase_getBoolean_setProperty c.toComponentBase _ v
  · exact fun c v => ComponentBase_getBoolean_setProperty c.toComponentBase _ v
  · exact fun c v => ComponentBase_getString_setProperty c.toComponentBase _ v
  · exact fun c v => ComponentBase_getString_setProperty c.toComponentBase _ v
  · exact fun c v => ComponentBase_getVector3_setProperty c.toComponentBase _ v
  · exact fun c v => ComponentBase_getVector4_setProperty c.toComponentBase _ v
  · exact fun c v => ComponentBase_getVector3_setProperty c.toComponentBase _ v
  · exact fun c v => ComponentBase_getBoolean_setProperty c.toComponentBase _ v
  · exact fun c v => ComponentBase_getBoolean_setProperty c.toComponentBase _ v

/-- C4: `EResultCode` is a four-value status. Its enumerators are exactly Init, InProgress,
Success and Failed in that order, they are pairwise distinct, their underlying codes are 0, 1,
2 and 3 and fit `uint8_t`, and Init, the default member initialiser of the `Result` field, has
the smallest code. -/
theorem EResultCode_four_value_status :
    (∀ c : EResultCode, c = .Init ∨ c = .InProgress ∨ c = .Success ∨ c = .Failed) ∧
    EResultCode.declaration.map Prod.fst
      = [EResultCode.Init, EResultCode.InProgress, EResultCode.Success, EResultCode.Failed] ∧
    List.Pairwise (fun a b : EResultCode => a ≠ b)
      [EResultCode.Init, EResultCode.InProgress, EResultCode.Success, EResultCode.Failed] ∧
    EResultCode.toInt .Init = 0 ∧ EResultCode.toInt .InProgress = 1 ∧
    EResultCode.toInt .Success = 2 ∧ EResultCode.toInt .Failed = 3 ∧
    Function.Injective EResultCode.toInt ∧
    (∀ c : EResultCode, 0 ≤ c.toInt ∧ c.toInt < 2 ^ 8) ∧
    (∀ c : EResultCode, EResultCode.toInt .Init ≤ c.toInt) ∧
    (∀ (body : String) (reason : Int),
      ({ ResponseBody := body, FailureReason := reason } : ResultBase).Result
        = EResultCode.Init) := by
  refine ⟨?_, rfl, by decide, by decide, by decide, by decide, by decide, ?_, ?_, ?_, ?_⟩
  · intro c; cases c <;> simp
  · intro a b h
    cases a <;> cases b <;> first | rfl | (exact absurd h (by decide))
  · intro c; cases c <;> decide
  · intro c; cases c <;> decide
  · intro body reason; rfl

/-- C7, as stated, fails at the key `Name`: it is a real key of both enumerations (it is not
`Num`), and neither `class ButtonSpaceComponent` nor `class StaticModelSpaceComponent` declares
a getter or a setter for it, so it has no typed slot. -/
theorem Name_key_has_no_accessor :
    (ButtonPropertyKeys.Name ≠ ButtonPropertyKeys.Num ∧
      getters ButtonSpaceComponent.declarations ButtonPropertyKeys.Name.identifier = [] ∧
      setters ButtonSpaceComponent.declarations ButtonPropertyKeys.Name.identifier = [] ∧
      hasTypedSlot ButtonSpaceComponent.declarations ButtonPropertyKeys.Name.identifier
        = false) ∧
    (StaticModelPropertyKeys.Name ≠ StaticModelPropertyKeys.Num ∧
      getters StaticModelSpaceComponent.declarations StaticModelPropertyKeys.Name.identifier
        = [] ∧
      setters StaticModelSpaceComponent.declarations StaticModelPropertyKeys.Name.identifier
        = [] ∧
      hasTypedSlot StaticModelSpaceComponent.declarations
        StaticModelPropertyKeys.Name.identifier = false) := by
  decide

/-- C7, amended: each property key of `ButtonPropertyKeys` and of `StaticModelPropertyKeys`
other than `Name` and `Num` maps to exactly one typed slot of its component class. Exactly one
getter and one setter are declared for it, the result type of the getter is the parameter type
of the setter, and that type is string for LabelText, IconAssetId, ModelAssetId and
AssetCollectionId, `Vector3` for Position and Scale, `Vector4` for Rotation, and `bool` for
IsVisible, IsEnabled and IsARVisible. -/
theorem keys_with_accessors_have_one_typed_slot :
    (∀ k : ButtonPropertyKeys, k ≠ .Name → k ≠ .Num →
      hasTypedSlot ButtonSpaceComponent.declarations k.identifier = true) ∧
    (∀ k : StaticModelPropertyKeys, k ≠ .Name → k ≠ .Num →
      hasTypedSlot StaticModelSpaceComponent.declarations k.identifier = true) ∧
    ([ButtonPropertyKeys.LabelText, .IconAssetId, .AssetCollectionId, .Position, .Rotation,
        .Scale, .IsVisible, .IsEnabled, .IsARVisible].map ButtonPropertyKeys.slotType
      = [some .String, some .String, some .String, some .Vector3, some .Vector4,
         some .Vector3, some .bool, some .bool, some .bool]) ∧
    ([StaticModelPropertyKeys.ModelAssetId, .AssetCollectionId, .Position, .Rotation,
        .Scale, .IsVisible, .IsARVisible].map StaticModelPropertyKeys.slotType
      = [some .String, some .String, some .Vector3, some .Vector4, some .Vector3,
         some .bool, some .bool]) := by
  refine ⟨?_, ?_, by decide, by decide⟩
  · intro k; cases k <;> decide
  · intro k; cases k <;> decide

/-- Witness for C7, amended: `LabelText` of the button component and `ModelAssetId` of the
static model component are neither `Name` nor `Num`, and each has its typed slot. -/
theorem keys_with_accessors_have_one_typed_slot_witness :
    (ButtonPropertyKeys.LabelText ≠ ButtonPropertyKeys.Name ∧
      ButtonPropertyKeys.LabelText ≠ ButtonPropertyKeys.Num ∧
      hasTypedSlot ButtonSpaceComponent.declarations ButtonPropertyKeys.LabelText.identifier
        = true) ∧
    (StaticModelPropertyKeys.ModelAssetId ≠ StaticModelPropertyKeys.Name ∧
      StaticModelPropertyKeys.ModelAssetId ≠ StaticModelPropertyKeys.Num ∧
      hasTypedSlot StaticModelSpaceComponent.declarations
        StaticModelPropertyKeys.ModelAssetId.identifier = true) :=
  ⟨⟨by decide, by decide,
      keys_with_accessors_have_one_typed_slot.1 .LabelText (by decide) (by decide)⟩,
    ⟨by decide, by decide,
      keys_with_accessors_have_one_typed_slot.2.1 .ModelAssetId (by decide) (by decide)⟩⟩
